import Mathlib

/-!
Shallow embedding of `google/validation.go` from the terraform-provider-google
repository: field-level input validators for configuration values.  Go strings
are modelled as Lean `String`s (lists of characters), a validator returns a
pair of a warning list and an error list, and each fixed regular expression of
the source is given its denotation as a decidable predicate on character lists.
Machine integers (`min`, `max` bounds of type Go `int`) are modelled as `Int`.
-/

namespace GoogleValidation

/-! ### Character classes used by the fixed regular expressions -/

/-- Character class `[a-z]`. -/
def isLowerAZ (c : Char) : Bool :=
  'a' ≤ c && c ≤ 'z'

/-- Character class `[A-Z]`. -/
def isUpperAZ (c : Char) : Bool :=
  'A' ≤ c && c ≤ 'Z'

/-- Character class `[0-9]`. -/
def isDigit09 (c : Char) : Bool :=
  '0' ≤ c && c ≤ '9'

/-- Character class `[a-z0-9]`. -/
def isLowerOrDigit (c : Char) : Bool :=
  isLowerAZ c || isDigit09 c

/-- Character class `[-a-z0-9]`. -/
def isNameInterior (c : Char) : Bool :=
  c == '-' || isLowerOrDigit c

/-- Character class `[a-zA-Z]`. -/
def isAlphaAZ (c : Char) : Bool :=
  isLowerAZ c || isUpperAZ c

/-- Character class `[-a-zA-Z0-9._+~%]` of `CloudIoTIdRegex`. -/
def isIoTInterior (c : Char) : Bool :=
  c == '-' || isAlphaAZ c || isDigit09 c || c == '.' || c == '_' ||
    c == '+' || c == '~' || c == '%'

/-! ### Denotations of the fixed regular expressions

All patterns used in the source are anchored (`^...$`), so `MatchString` is a
full match of the whole value. -/

/-- Denotation of the regex fragment `[-a-z0-9]{m,M}[a-z0-9]` matched against
the whole list `cs`: all of `cs` but its last character lies in `[-a-z0-9]`
with a repetition count between `m` and `M`, and the last character lies in
`[a-z0-9]`. -/
def matchesMiddleEnd (m M : Nat) (cs : List Char) : Bool :=
  match cs.getLast? with
  | none => false
  | some lastc =>
    isLowerOrDigit lastc && decide (m ≤ cs.dropLast.length) &&
      decide (cs.dropLast.length ≤ M) && cs.dropLast.all isNameInterior

/-- Denotation of `^(?:[a-z](?:[-a-z0-9]{0,61}[a-z0-9])?)$`, the pattern of
`validateGCPName`. -/
def matchesGCPNameRe (cs : List Char) : Bool :=
  match cs with
  | [] => false
  | c :: rest => isLowerAZ c && (rest.isEmpty || matchesMiddleEnd 0 61 rest)

/-- Denotation of `^[a-z](?:[-a-z0-9]{m,M}[a-z0-9])$`, the anchored
`RFC1035NameTemplate` instantiated with repetition bounds `m`, `M`. -/
def matchesRFC1035Re (m M : Nat) (cs : List Char) : Bool :=
  match cs with
  | [] => false
  | c :: rest => isLowerAZ c && matchesMiddleEnd m M rest

/-- Denotation of `CloudIoTIdRegex = ^[a-zA-Z][-a-zA-Z0-9._+~%]{2,254}$`. -/
def matchesCloudIoTIdRe (cs : List Char) : Bool :=
  match cs with
  | [] => false
  | c :: rest =>
    isAlphaAZ c && decide (2 ≤ rest.length) && decide (rest.length ≤ 254) &&
      rest.all isIoTInterior

/-! ### The regex pattern strings of the source (used in error messages) -/

/-- The pattern literal used by `validateGCPName`. -/
def GCPNameRe : String := "^(?:[a-z](?:[-a-z0-9]\x7b0,61\x7d[a-z0-9])?)$"

/-- `RFC1035NameTemplate` after `fmt.Sprintf` with repetition bounds `m, M`. -/
def RFC1035NameTemplate (m M : Int) : String :=
  "[a-z](?:[-a-z0-9]\x7b" ++ toString m ++ "," ++ toString M ++ "\x7d[a-z0-9])"

/-- The constant `CloudIoTIdRegex`. -/
def CloudIoTIdRegex : String := "^[a-zA-Z][-a-zA-Z0-9._+~%]\x7b2,254\x7d$"

/-! ### Validator results and errors

Each Go validator returns `(ws []string, errors []error)`.  The `error` values
are Go formatted strings; we model them as a structured type, one constructor
per distinct `fmt.Errorf` call site, carrying the interpolated data. -/

/-- One constructor per `fmt.Errorf` site of `validation.go` (plus those of
the library helper `validation.CIDRNetwork` described by the spec). -/
inductive VErr where
  /-- `"%q (%q) doesn't match regexp %q"` from `validateRegexp`. -/
  | regexpMismatch (k v re : String)
  /-- `CIDRNetwork`: value does not parse as a CIDR. -/
  | cidrParse (k v : String)
  /-- `CIDRNetwork`: prefix length outside `[minB, maxB]`. -/
  | cidrPrefixRange (k : String) (minB maxB : Int) (got : Nat)
  /-- `"expected %q to be an RFC1918-compliant CIDR, got: %s"`. -/
  | rfc1918 (k v : String)
  /-- `"%q (%q) must be in the format HH:mm (RFC3399)"`. -/
  | timeFormat (k v : String)
  /-- `"%q (%q) does not contain a valid hour (00-23)"`. -/
  | timeHour (k v : String)
  /-- `"%q (%q) does not contain a valid minute (00-59)"`. -/
  | timeMinute (k v : String)
  /-- `"min must be at least 2. Got: %d"`. -/
  | cfgMinTooSmall (minB : Int)
  /-- `"max must greater than min. Got [%d, %d]"`. -/
  | cfgMaxLessThanMin (minB maxB : Int)
  /-- `"%q is not a valid IP CIDR range: %s"` with the parse failure reason. -/
  | ipCidr (k v : String)
  /-- `"%q (%q) can not start with \"goog\""`. -/
  | googReserved (k v : String)
  deriving DecidableEq, Repr

/-- The `(warnings, errors)` pair a validator returns. -/
abbrev VResult := List String × List VErr

/-! ### `validateRegexp` and `validateGCPName` -/

/-- `validateRegexp re`: appends one error when the value does not match the
regex `re`.  The denotation of `re` is supplied as the boolean matcher `m`. -/
def validateRegexp (re : String) (m : String → Bool) (v k : String) : VResult :=
  if m v then ([], []) else ([], [VErr.regexpMismatch k v re])

/-- `validateGCPName`: `validateRegexp` applied to the fixed GCP-name
pattern. -/
def validateGCPName (v k : String) : VResult :=
  validateRegexp GCPNameRe (fun s => matchesGCPNameRe s.data) v k

/-! ### CIDR parsing

`net.ParseCIDR` and terraform's `validation.CIDRNetwork` are library code, not
part of this repository's sources; they are modelled from the spec. -/

/-- Decimal parse of a digit string, the semantics of Go's
`strconv.ParseUint(s, 10, 0)`: fails on an empty string or any non-digit
character, otherwise folds the digits in base 10. -/
def parseUintDec (cs : List Char) : Option Nat :=
  if cs.isEmpty then none
  else if cs.all isDigit09 then
    some (cs.foldl (fun acc c => acc * 10 + (c.toNat - 48)) 0)
  else none

/-- One dotted-decimal IPv4 octet: a digit string with value at most 255. -/
def parseOctet (cs : List Char) : Option Nat :=
  match parseUintDec cs with
  | some n => if n ≤ 255 then some n else none
  | none => none

/-- A prefix length: a digit string with value at most 32. -/
def parseMaskLen (cs : List Char) : Option Nat :=
  match parseUintDec cs with
  | some n => if n ≤ 32 then some n else none
  | none => none

/-- Dotted-decimal IPv4 address `a.b.c.d` as a 32-bit number. -/
def parseIPv4 (cs : List Char) : Option Nat :=
  let parts := cs.splitOn '.'
  if parts.length = 4 then
    (parts.mapM parseOctet).map (fun os => os.foldl (fun a o => a * 256 + o) 0)
  else none

/-- Split at the first `/`, as `net.ParseCIDR` does. -/
def splitOnSlash (cs : List Char) : Option (List Char × List Char) :=
  match cs.findIdx? (· == '/') with
  | none => none
  | some i => some (cs.take i, cs.drop (i + 1))

/-- Modelled from the spec: Go's `net.ParseCIDR` (standard-library code not in
this repository), restricted to IPv4 as the spec describes — "parse value as
`address/prefixLength`".  Returns the address as a 32-bit number and the
prefix length. -/
def parseCIDR (v : String) : Option (Nat × Nat) :=
  match splitOnSlash v.data with
  | none => none
  | some (a, m) =>
    match parseIPv4 a, parseMaskLen m with
    | some ip, some plen => some (ip, plen)
    | _, _ => none

/-- Modelled from the spec: terraform's `validation.CIDRNetwork(min, max)`
(library code not in this repository), as §4.3 step 1 describes it — "parse
value as `address/prefixLength`; fail with a descriptive error if unparsable
or if `prefixLength` not in `[min, max]`". -/
def CIDRNetwork (minB maxB : Int) (v k : String) : VResult :=
  match parseCIDR v with
  | none => ([], [VErr.cidrParse k v])
  | some (_, plen) =>
    if (plen : Int) < minB ∨ maxB < (plen : Int) then
      ([], [VErr.cidrPrefixRange k minB maxB plen])
    else ([], [])

/-- Modelled from the spec: `net.IPNet.Contains` for an IPv4 network with
(already masked) base address `base` and prefix length `plen` — the top
`plen` bits of `ip` agree with those of `base`. -/
def ipnetContains (base plen ip : Nat) : Bool :=
  ip / 2 ^ (32 - plen) == base / 2 ^ (32 - plen)

/-- The constant slice `rfc1918Networks`. -/
def rfc1918Networks : List String :=
  ["10.0.0.0/8", "172.16.0.0/12", "192.168.0.0/16"]

/-- The loop of `validateRFC1918Network`: some block of `rfc1918Networks`
contains the parsed address (`ipo = none` models Go's `nil` IP, which no
network contains). -/
def inSomeRFC1918 (ipo : Option Nat) : Bool :=
  rfc1918Networks.any fun c =>
    match parseCIDR c, ipo with
    | some (base, plen), some ip => ipnetContains base plen ip
    | _, _ => false

/-- `validateRFC1918Network(min, max)`: run `validation.CIDRNetwork(min, max)`
and return its result when it produced errors; otherwise re-parse the value
and return unchanged when some RFC1918 block contains the address, else append
the RFC1918 error. -/
def validateRFC1918Network (minB maxB : Int) (v k : String) : VResult :=
  if (CIDRNetwork minB maxB v k).2.length > 0 then CIDRNetwork minB maxB v k
  else if inSomeRFC1918 ((parseCIDR v).map Prod.fst) then CIDRNetwork minB maxB v k
  else ((CIDRNetwork minB maxB v k).1,
        (CIDRNetwork minB maxB v k).2 ++ [VErr.rfc1918 k v])

/-! ### `validateRFC3339Time` -/

/-- `validateRFC3339Time`: exactly 5 characters with `:` at index 2, then
`time[:2]` parses as an hour `00`–`23`, then `time[3:]` parses as a minute
`00`–`59`; the first failing check returns its error alone. -/
def validateRFC3339Time (v k : String) : VResult :=
  if v.data.length ≠ 5 ∨ v.data.getD 2 ' ' ≠ ':' then ([], [VErr.timeFormat k v])
  else
    match parseUintDec (v.data.take 2) with
    | none => ([], [VErr.timeHour k v])
    | some hour =>
      if 23 < hour then ([], [VErr.timeHour k v])
      else
        match parseUintDec (v.data.drop 3) with
        | none => ([], [VErr.timeMinute k v])
        | some minute =>
          if 59 < minute then ([], [VErr.timeMinute k v])
          else ([], [])

/-! ### `validateRFC1035Name` -/

/-- `validateRFC1035Name(min, max)`: when `min < 2` or `max < min` the
returned validator reports the configuration errors (ignoring the value);
otherwise it is `validateRegexp` on the anchored `RFC1035NameTemplate` with
repetition bounds `min-2`, `max-2`. -/
def validateRFC1035Name (minB maxB : Int) (v k : String) : VResult :=
  if minB < 2 ∨ maxB < minB then
    ([], (if minB < 2 then [VErr.cfgMinTooSmall minB] else []) ++
         (if maxB < minB then [VErr.cfgMaxLessThanMin minB maxB] else []))
  else
    validateRegexp ("^" ++ RFC1035NameTemplate (minB - 2) (maxB - 2) ++ "$")
      (fun s => matchesRFC1035Re (minB - 2).toNat (maxB - 2).toNat s.data) v k

/-! ### `validateIpCidrRange` -/

/-- `validateIpCidrRange`: one error when `net.ParseCIDR` fails, none
otherwise. -/
def validateIpCidrRange (v k : String) : VResult :=
  match parseCIDR v with
  | none => ([], [VErr.ipCidr k v])
  | some _ => ([], [])

/-! ### `validateCloudIoTID` -/

/-- `validateCloudIoTID`: the reserved `goog` check and the
`CloudIoTIdRegex` shape check run unconditionally, each appending its own
error. -/
def validateCloudIoTID (v k : String) : VResult :=
  ([], (if "goog".data.isPrefixOf v.data then [VErr.googReserved k v] else []) ++
       (if matchesCloudIoTIdRe v.data then [] else
         [VErr.regexpMismatch k v CloudIoTIdRegex]))

/-! ### Spec-side predicates

These state the claims' characterizations in structural terms (lengths and
character positions), independently of the regex denotations above. -/

/-- The address `ip` lies inside at least one of `10.0.0.0/8`,
`172.16.0.0/12`, `192.168.0.0/16` (address membership in the block). -/
abbrev rfc1918Spec (ip : Nat) : Prop :=
  ipnetContains (10 * 2 ^ 24) 8 ip = true ∨
    ipnetContains (172 * 2 ^ 24 + 16 * 2 ^ 16) 12 ip = true ∨
    ipnetContains (192 * 2 ^ 24 + 168 * 2 ^ 16) 16 ip = true

/-- A valid RFC1035 name for bounds `minB`, `maxB`: total length between
`minB` and `maxB`, first character a lowercase letter, last character
alphanumeric, interior characters lowercase letters, digits, or hyphens. -/
abbrev rfc1035Spec (minB maxB : Int) (cs : List Char) : Prop :=
  minB ≤ (cs.length : Int) ∧ (cs.length : Int) ≤ maxB ∧
    isLowerAZ (cs.headD 'A') = true ∧ isLowerOrDigit (cs.getLastD 'A') = true ∧
    (cs.drop 1).dropLast.all isNameInterior = true

/-- A valid generic GCP name: 1 to 63 characters, first character a lowercase
letter, and (unless the name is a single character) last character
alphanumeric with interior characters lowercase letters, digits, or
hyphens. -/
abbrev gcpNameSpec (cs : List Char) : Prop :=
  1 ≤ cs.length ∧ cs.length ≤ 63 ∧ isLowerAZ (cs.headD 'A') = true ∧
    (cs.length = 1 ∨
      (isLowerOrDigit (cs.getLastD 'A') = true ∧
        (cs.drop 1).dropLast.all isNameInterior = true))

/-- The value has exactly 5 characters with a colon at index 2. -/
abbrev timeFormatOK (cs : List Char) : Prop :=
  cs.length = 5 ∧ cs.getD 2 ' ' = ':'

/-- The first two characters parse as an unsigned integer at most 23. -/
abbrev timeHourOK (cs : List Char) : Prop :=
  ((parseUintDec (cs.take 2)).any fun n => decide (n ≤ 23)) = true

/-- The characters after the colon parse as an unsigned integer at most 59. -/
abbrev timeMinuteOK (cs : List Char) : Prop :=
  ((parseUintDec (cs.drop 3)).any fun n => decide (n ≤ 59)) = true

/-- The remaining-character set of claim C7's wording: letters, digits, `.`,
`_`, `+`, `~`, `%` — the hyphen is absent. -/
def isIoTClaimRemainder (c : Char) : Bool :=
  isAlphaAZ c || isDigit09 c || c == '.' || c == '_' || c == '+' ||
    c == '~' || c == '%'

/-- The claim's shape characterization with its literal character set (no
hyphen): starts with a letter, 3–255 total characters, remaining characters
letters, digits, `.`, `_`, `+`, `~`, `%`. -/
abbrev ioTShapeClaim (cs : List Char) : Prop :=
  isAlphaAZ (cs.headD '1') = true ∧ 3 ≤ cs.length ∧ cs.length ≤ 255 ∧
    (cs.drop 1).all isIoTClaimRemainder = true

/-- The shape characterization matching the source's character class, which
also admits the hyphen: starts with a letter, 3–255 total characters,
remaining characters letters, digits, `-`, `.`, `_`, `+`, `~`, `%`. -/
abbrev ioTShapeSpec (cs : List Char) : Prop :=
  isAlphaAZ (cs.headD '1') = true ∧ 3 ≤ cs.length ∧ cs.length ≤ 255 ∧
    (cs.drop 1).all isIoTInterior = true

/-- `validateCloudIoTID` produced no shape-pattern error for `v` at key
`k`. -/
abbrev noShapeError (v k : String) : Prop :=
  VErr.regexpMismatch k v CloudIoTIdRegex ∉ (validateCloudIoTID v k).2

/-! ### Helper lemmas -/

theorem validateRegexp_fst (re : String) (m : String → Bool) (v k : String) :
    (validateRegexp re m v k).1 = [] := by
  unfold validateRegexp
  split <;> rfl

theorem CIDRNetwork_fst (minB maxB : Int) (v k : String) :
    (CIDRNetwork minB maxB v k).1 = [] := by
  unfold CIDRNetwork
  rcases h : parseCIDR v with _ | ⟨ip, plen⟩
  · rfl
  · dsimp only
    split <;> rfl

theorem CIDRNetwork_shape (minB maxB : Int) (v k : String) :
    (CIDRNetwork minB maxB v k).2 = [] ∨
      (CIDRNetwork minB maxB v k).2 = [VErr.cidrParse k v] ∨
      ∃ p, (CIDRNetwork minB maxB v k).2 = [VErr.cidrPrefixRange k minB maxB p] := by
  unfold CIDRNetwork
  rcases h : parseCIDR v with _ | ⟨ip, plen⟩
  · exact Or.inr (Or.inl rfl)
  · dsimp only
    split
    · exact Or.inr (Or.inr ⟨plen, rfl⟩)
    · exact Or.inl rfl

theorem validateRFC3339Time_fst (v k : String) :
    (validateRFC3339Time v k).1 = [] := by
  unfold validateRFC3339Time
  split
  · rfl
  · split
    · rfl
    · split
      · rfl
      · split
        · rfl
        · split <;> rfl

theorem validateRFC1035Name_fst (minB maxB : Int) (v k : String) :
    (validateRFC1035Name minB maxB v k).1 = [] := by
  unfold validateRFC1035Name
  split
  · rfl
  · exact validateRegexp_fst _ _ v k

theorem validateRFC1918Network_fst (minB maxB : Int) (v k : String) :
    (validateRFC1918Network minB maxB v k).1 = [] := by
  unfold validateRFC1918Network
  split
  · exact CIDRNetwork_fst minB maxB v k
  · split
    · exact CIDRNetwork_fst minB maxB v k
    · exact CIDRNetwork_fst minB maxB v k

theorem parseCIDR_block1 : parseCIDR "10.0.0.0/8" = some (10 * 2 ^ 24, 8) := by
  decide

theorem parseCIDR_block2 :
    parseCIDR "172.16.0.0/12" = some (172 * 2 ^ 24 + 16 * 2 ^ 16, 12) := by
  decide

theorem parseCIDR_block3 :
    parseCIDR "192.168.0.0/16" = some (192 * 2 ^ 24 + 168 * 2 ^ 16, 16) := by
  decide

theorem inSomeRFC1918_some_iff (ip : Nat) :
    inSomeRFC1918 (some ip) = true ↔ rfc1918Spec ip := by
  simp only [inSomeRFC1918, rfc1918Networks, List.any_cons, List.any_nil,
    parseCIDR_block1, parseCIDR_block2, parseCIDR_block3, Bool.or_false,
    Bool.or_eq_true, rfc1918Spec]

theorem matchesMiddleEnd_concat (m M : Nat) (mid : List Char) (lastc : Char) :
    matchesMiddleEnd m M (mid ++ [lastc]) =
      (isLowerOrDigit lastc && decide (m ≤ mid.length) &&
        decide (mid.length ≤ M) && mid.all isNameInterior) := by
  unfold matchesMiddleEnd
  rw [List.getLast?_concat, List.dropLast_concat]

theorem getLastD_cons_concat (c : Char) (mid : List Char) (lastc d : Char) :
    (c :: (mid ++ [lastc])).getLastD d = lastc := by
  rw [← List.cons_append, List.getLastD_concat]

theorem matchesRFC1035Re_iff (minB maxB : Int) (h2 : 2 ≤ minB)
    (hm : minB ≤ maxB) (cs : List Char) :
    matchesRFC1035Re (minB - 2).toNat (maxB - 2).toNat cs = true ↔
      rfc1035Spec minB maxB cs := by
  rcases cs with _ | ⟨c, rest⟩
  · simp only [matchesRFC1035Re, rfc1035Spec, List.length_nil]
    constructor
    · intro h
      simp at h
    · intro h
      exact absurd h.1 (by omega)
  · rcases List.eq_nil_or_concat rest with hre | ⟨mid, lastc, hre⟩ <;> subst hre
    · simp only [matchesRFC1035Re, matchesMiddleEnd, List.getLast?_nil,
        rfc1035Spec, List.length_cons, List.length_nil, Bool.and_false]
      constructor
      · intro h
        simp at h
      · intro h
        exact absurd h.1 (by omega)
    · simp only [List.concat_eq_append, matchesRFC1035Re,
        matchesMiddleEnd_concat, rfc1035Spec, List.headD_cons,
        getLastD_cons_concat, List.drop_succ_cons, List.drop_zero,
        List.dropLast_concat, List.length_cons, List.length_append,
        List.length_nil, Bool.and_eq_true, decide_eq_true_eq]
      constructor
      · rintro ⟨hc, ⟨⟨hl, hmn⟩, hmx⟩, hall⟩
        refine ⟨?_, ?_, hc, hl, hall⟩ <;> omega
      · rintro ⟨hmn, hmx, hc, hl, hall⟩
        refine ⟨hc, ⟨⟨hl, ?_⟩, ?_⟩, hall⟩ <;> omega

theorem matchesGCPNameRe_iff (cs : List Char) :
    matchesGCPNameRe cs = true ↔ gcpNameSpec cs := by
  rcases cs with _ | ⟨c, rest⟩
  · simp [matchesGCPNameRe, gcpNameSpec]
  · rcases List.eq_nil_or_concat rest with hre | ⟨mid, lastc, hre⟩ <;> subst hre
    · simp [matchesGCPNameRe, gcpNameSpec]
    · simp only [List.concat_eq_append, matchesGCPNameRe,
        matchesMiddleEnd_concat, gcpNameSpec, List.headD_cons,
        getLastD_cons_concat, List.drop_succ_cons, List.drop_zero,
        List.dropLast_concat, List.length_cons, List.length_append,
        List.length_nil, List.isEmpty_eq_true, List.append_eq_nil,
        Bool.or_eq_true, Bool.and_eq_true, decide_eq_true_eq]
      constructor
      · rintro ⟨hc, h | ⟨⟨⟨hl, -⟩, hmx⟩, hall⟩⟩
        · exact absurd h.2 (by simp)
        · exact ⟨by omega, by omega, hc, Or.inr ⟨hl, hall⟩⟩
      · rintro ⟨-, hmx, hc, h | ⟨hl, hall⟩⟩
        · omega
        · exact ⟨hc, Or.inr ⟨⟨⟨hl, by omega⟩, by omega⟩, hall⟩⟩

theorem matchesCloudIoTIdRe_iff (cs : List Char) :
    matchesCloudIoTIdRe cs = true ↔ ioTShapeSpec cs := by
  rcases cs with _ | ⟨c, rest⟩
  · simp [matchesCloudIoTIdRe, ioTShapeSpec]
  · simp only [matchesCloudIoTIdRe, ioTShapeSpec, List.length_cons,
      List.headD_cons, List.drop_succ_cons, List.drop_zero, Bool.and_eq_true,
      decide_eq_true_eq]
    constructor
    · rintro ⟨⟨⟨hc, h2⟩, h254⟩, hall⟩
      exact ⟨hc, by omega, by omega, hall⟩
    · rintro ⟨hc, h3, h255, hall⟩
      exact ⟨⟨⟨hc, by omega⟩, by omega⟩, hall⟩

/-! ### Claim theorems -/

/-- C1: for every value that passes the generic CIDR-with-prefix-range check
with bounds `(minB, maxB)`, `validateRFC1918Network minB maxB` returns zero
errors iff the address portion of the parsed CIDR lies inside at least one of
`10.0.0.0/8`, `172.16.0.0/12`, `192.168.0.0/16`; when the address lies outside
all three blocks, exactly one error (the RFC1918 message) is returned. -/
theorem validateRFC1918Network_membership (minB maxB : Int) (v k : String)
    (ip plen : Nat) (hp : parseCIDR v = some (ip, plen))
    (hg : (CIDRNetwork minB maxB v k).2 = []) :
    ((validateRFC1918Network minB maxB v k).2 = [] ↔ rfc1918Spec ip) ∧
    (¬ rfc1918Spec ip →
      (validateRFC1918Network minB maxB v k).2 = [VErr.rfc1918 k v]) := by
  have hlen : ¬ (CIDRNetwork minB maxB v k).2.length > 0 := by
    rw [hg]
    simp
  have hmap : (parseCIDR v).map Prod.fst = some ip := by
    rw [hp]
    rfl
  by_cases hs : rfc1918Spec ip
  · have ht : inSomeRFC1918 ((parseCIDR v).map Prod.fst) = true := by
      rw [hmap]
      exact (inSomeRFC1918_some_iff ip).mpr hs
    unfold validateRFC1918Network
    rw [if_neg hlen, if_pos ht, hg]
    exact ⟨by simp [hs], fun hn => absurd hs hn⟩
  · have ht : ¬ inSomeRFC1918 ((parseCIDR v).map Prod.fst) = true := by
      rw [hmap]
      exact fun hh => hs ((inSomeRFC1918_some_iff ip).mp hh)
    unfold validateRFC1918Network
    rw [if_neg hlen, if_neg ht]
    constructor
    · rw [hg]
      simp [hs]
    · intro _
      rw [hg]
      rfl

/-- C1 witness: `"10.0.0.0/20"` passes the generic check with bounds
`(16, 24)` and is accepted as RFC1918. -/
theorem validateRFC1918Network_membership_witness :
    (validateRFC1918Network 16 24 "10.0.0.0/20" "key").2 = [] :=
  (validateRFC1918Network_membership 16 24 "10.0.0.0/20" "key" 167772160 20
    (by decide) (by decide)).1.mpr (by decide)

/-- C2: whenever the generic CIDR-with-prefix-range step fails (the value is
unparsable, or the prefix length lies outside `[minB, maxB]`),
`validateRFC1918Network` returns exactly the generic step's result, and no
RFC1918 error ever appears. -/
theorem validateRFC1918Network_short_circuit (minB maxB : Int) (v k : String)
    (hf : parseCIDR v = none ∨
      ∃ ip plen, parseCIDR v = some (ip, plen) ∧
        ((plen : Int) < minB ∨ maxB < (plen : Int))) :
    validateRFC1918Network minB maxB v k = CIDRNetwork minB maxB v k ∧
    ∀ k2 v2, VErr.rfc1918 k2 v2 ∉ (validateRFC1918Network minB maxB v k).2 := by
  have hne : (CIDRNetwork minB maxB v k).2 ≠ [] := by
    unfold CIDRNetwork
    rcases hf with h | ⟨ip, plen, hp, hr⟩
    · rw [h]
      simp
    · rw [hp]
      dsimp only
      rw [if_pos hr]
      simp
  have heq : validateRFC1918Network minB maxB v k = CIDRNetwork minB maxB v k := by
    unfold validateRFC1918Network
    rw [if_pos (List.length_pos.mpr hne)]
  refine ⟨heq, fun k2 v2 hmem => ?_⟩
  rw [heq] at hmem
  rcases CIDRNetwork_shape minB maxB v k with h | h | ⟨p, h⟩ <;>
    rw [h] at hmem <;> simp at hmem

/-- C2 witness: `"10.0.0.0/8"` parses but its prefix length 8 lies below the
bound 16, so only the generic error is returned. -/
theorem validateRFC1918Network_short_circuit_witness :
    validateRFC1918Network 16 24 "10.0.0.0/8" "key" =
      CIDRNetwork 16 24 "10.0.0.0/8" "key" :=
  (validateRFC1918Network_short_circuit 16 24 "10.0.0.0/8" "key"
    (Or.inr ⟨167772160, 8, by decide, by decide⟩)).1

/-- C9: `validateIpCidrRange` returns zero errors iff the value parses as a
CIDR; on parse failure it returns exactly one error (carrying the failing
value), with no prefix-length constraint beyond parseability. -/
theorem validateIpCidrRange_characterization (v k : String) :
    ((validateIpCidrRange v k).2 = [] ↔ (parseCIDR v).isSome = true) ∧
    (parseCIDR v = none → (validateIpCidrRange v k).2 = [VErr.ipCidr k v]) := by
  unfold validateIpCidrRange
  rcases h : parseCIDR v with _ | pr <;> simp

/-- C9 witness: `"banana"` does not parse, so exactly the parse error is
returned. -/
theorem validateIpCidrRange_characterization_witness :
    (validateIpCidrRange "banana" "key").2 = [VErr.ipCidr "key" "banana"] :=
  (validateIpCidrRange_characterization "banana" "key").2 (by decide)

/-- C10: every validator in the file returns an empty warnings list for every
input value and field key; only the error list is ever populated. -/
theorem validators_no_warnings (v k : String) :
    (validateGCPName v k).1 = [] ∧
    (∀ re m, (validateRegexp re m v k).1 = []) ∧
    (∀ minB maxB : Int, (validateRFC1035Name minB maxB v k).1 = []) ∧
    (validateRFC3339Time v k).1 = [] ∧
    (validateIpCidrRange v k).1 = [] ∧
    (validateCloudIoTID v k).1 = [] ∧
    (∀ minB maxB : Int, (validateRFC1918Network minB maxB v k).1 = []) := by
  refine ⟨validateRegexp_fst _ _ v k, fun re m => validateRegexp_fst re m v k,
    fun minB maxB => validateRFC1035Name_fst minB maxB v k,
    validateRFC3339Time_fst v k, ?_, rfl,
    fun minB maxB => validateRFC1918Network_fst minB maxB v k⟩
  unfold validateIpCidrRange
  rcases h : parseCIDR v with _ | pr <;> rfl

theorem validateRegexp_snd (re : String) (m : String → Bool) (v k : String) :
    (validateRegexp re m v k).2 =
      if m v then [] else [VErr.regexpMismatch k v re] := by
  unfold validateRegexp
  split <;> simp_all

/-- C8: `validateGCPName` returns zero errors exactly on the strings matching
`^[a-z](?:[-a-z0-9]{0,61}[a-z0-9])?$` — 1 to 63 characters, first character a
lowercase letter and, past length 1, alphanumeric last character with
interior characters from `[-a-z0-9]` — and on mismatch returns exactly one
error carrying the field key, the value, and the pattern. -/
theorem validateGCPName_characterization (v k : String) :
    ((validateGCPName v k).2 = [] ↔ gcpNameSpec v.data) ∧
    (¬ gcpNameSpec v.data →
      (validateGCPName v k).2 = [VErr.regexpMismatch k v GCPNameRe]) := by
  have hv : (validateGCPName v k).2 =
      if matchesGCPNameRe v.data then [] else
        [VErr.regexpMismatch k v GCPNameRe] :=
    validateRegexp_snd GCPNameRe (fun s => matchesGCPNameRe s.data) v k
  rw [hv]
  by_cases hmt : matchesGCPNameRe v.data = true
  · rw [if_pos hmt]
    have hspec := (matchesGCPNameRe_iff v.data).mp hmt
    exact ⟨iff_of_true rfl hspec, fun hn => absurd hspec hn⟩
  · rw [if_neg hmt]
    have hspec : ¬ gcpNameSpec v.data :=
      fun hsp => hmt ((matchesGCPNameRe_iff v.data).mpr hsp)
    refine ⟨iff_of_false (by simp) hspec, fun _ => rfl⟩

/-- C8 witness: `"abc-1"` is accepted by the generic name validator. -/
theorem validateGCPName_characterization_witness :
    (validateGCPName "abc-1" "key").2 = [] :=
  (validateGCPName_characterization "abc-1" "key").1.mpr (by decide)

/-- C3: for bounds `2 ≤ minB ≤ maxB`, the RFC1035 validator accepts exactly
the strings of total length `minB` to `maxB` whose first character is a
lowercase letter, last character is alphanumeric, and interior characters are
lowercase letters, digits or hyphens, returning exactly one error on
mismatch; with `(4, 28)`: `"abcdef"` and `"abc-def"` are accepted, `"ab"` and
`"-abcdef"` are rejected. -/
theorem validateRFC1035Name_characterization (minB maxB : Int)
    (h2 : 2 ≤ minB) (hm : minB ≤ maxB) (v k : String) :
    ((validateRFC1035Name minB maxB v k).2 = [] ↔
      rfc1035Spec minB maxB v.data) ∧
    (¬ rfc1035Spec minB maxB v.data →
      (validateRFC1035Name minB maxB v k).2 =
        [VErr.regexpMismatch k v
          ("^" ++ RFC1035NameTemplate (minB - 2) (maxB - 2) ++ "$")]) ∧
    (validateRFC1035Name 4 28 "abcdef" k).2 = [] ∧
    (validateRFC1035Name 4 28 "ab" k).2.length = 1 ∧
    (validateRFC1035Name 4 28 "abc-def" k).2 = [] ∧
    (validateRFC1035Name 4 28 "-abcdef" k).2.length = 1 := by
  have hcfg : ¬ (minB < 2 ∨ maxB < minB) := by omega
  have hv : (validateRFC1035Name minB maxB v k).2 =
      if matchesRFC1035Re (minB - 2).toNat (maxB - 2).toNat v.data then []
      else
        [VErr.regexpMismatch k v
          ("^" ++ RFC1035NameTemplate (minB - 2) (maxB - 2) ++ "$")] := by
    unfold validateRFC1035Name
    rw [if_neg hcfg]
    exact validateRegexp_snd _ _ v k
  refine ⟨?_, ?_, rfl, rfl, rfl, rfl⟩ <;> rw [hv]
  · by_cases hmt : matchesRFC1035Re (minB - 2).toNat (maxB - 2).toNat v.data = true
    · rw [if_pos hmt]
      exact iff_of_true rfl ((matchesRFC1035Re_iff minB maxB h2 hm v.data).mp hmt)
    · rw [if_neg hmt]
      refine iff_of_false (by simp) ?_
      exact fun hsp => hmt ((matchesRFC1035Re_iff minB maxB h2 hm v.data).mpr hsp)
  · intro hn
    rw [if_neg
      (fun hmt => hn ((matchesRFC1035Re_iff minB maxB h2 hm v.data).mp hmt))]

/-- C3 witness: with bounds `(4, 28)`, `"abcdef"` satisfies the structural
characterization and is accepted. -/
theorem validateRFC1035Name_characterization_witness :
    (validateRFC1035Name 4 28 "abcdef" "key").2 = [] :=
  (validateRFC1035Name_characterization 4 28 (by decide) (by decide)
    "abcdef" "key").1.mpr (by decide)

/-- C4: with `minB < 2` or `maxB < minB`, the RFC1035 validator returns a
non-empty list of configuration errors identifying which bound is invalid (a
min-too-small error when `minB < 2`, a max-vs-min error when `maxB < minB`),
never performs a value check (the result is independent of the value), and
with `minB = 1` a configuration error is returned for every value. -/
theorem validateRFC1035Name_config_errors (minB maxB : Int)
    (h : minB < 2 ∨ maxB < minB) (v k : String) :
    (validateRFC1035Name minB maxB v k).2 ≠ [] ∧
    (minB < 2 →
      VErr.cfgMinTooSmall minB ∈ (validateRFC1035Name minB maxB v k).2) ∧
    (maxB < minB →
      VErr.cfgMaxLessThanMin minB maxB ∈ (validateRFC1035Name minB maxB v k).2) ∧
    (∀ e ∈ (validateRFC1035Name minB maxB v k).2,
      e = VErr.cfgMinTooSmall minB ∨ e = VErr.cfgMaxLessThanMin minB maxB) ∧
    (∀ w : String,
      validateRFC1035Name minB maxB v k = validateRFC1035Name minB maxB w k) ∧
    (∀ u k2 : String,
      (validateRFC1035Name 1 28 u k2).2 = [VErr.cfgMinTooSmall 1]) := by
  have hval : validateRFC1035Name minB maxB v k = ([],
      (if minB < 2 then [VErr.cfgMinTooSmall minB] else []) ++
      (if maxB < minB then [VErr.cfgMaxLessThanMin minB maxB] else [])) := by
    unfold validateRFC1035Name
    rw [if_pos h]
  refine ⟨?_, ?_, ?_, ?_, ?_, fun u k2 => rfl⟩
  · rw [hval]
    rcases h with h1 | h1 <;> simp [h1]
  · intro h1
    rw [hval]
    simp [h1]
  · intro h1
    rw [hval]
    simp [h1]
  · intro e he
    rw [hval] at he
    by_cases hm1 : minB < 2 <;> by_cases hm2 : maxB < minB <;>
      simp [hm1, hm2] at he <;> tauto
  · intro w
    unfold validateRFC1035Name
    rw [if_pos h, if_pos h]

/-- C4 witness: constructing with `min = 1` yields the min-too-small
configuration error regardless of the value. -/
theorem validateRFC1035Name_config_errors_witness :
    (validateRFC1035Name 1 28 "abcdef" "key").2 ≠ [] :=
  (validateRFC1035Name_config_errors 1 28 (Or.inl (by decide))
    "abcdef" "key").1

theorem rfc3339_format_fail (v k : String) (hf : ¬ timeFormatOK v.data) :
    validateRFC3339Time v k = ([], [VErr.timeFormat k v]) := by
  unfold validateRFC3339Time
  rw [if_pos (not_and_or.mp hf)]

theorem rfc3339_hour_fail (v k : String) (hf : timeFormatOK v.data)
    (hh : ¬ timeHourOK v.data) :
    validateRFC3339Time v k = ([], [VErr.timeHour k v]) := by
  unfold validateRFC3339Time
  rw [if_neg (by push_neg; exact ⟨hf.1, hf.2⟩)]
  rcases hp : parseUintDec (v.data.take 2) with _ | n
  · rfl
  · simp only [timeHourOK, hp, Option.any_some, decide_eq_true_eq] at hh
    dsimp only
    rw [if_pos (by omega)]

theorem rfc3339_minute_fail (v k : String) (hf : timeFormatOK v.data)
    (hh : timeHourOK v.data) (hmn : ¬ timeMinuteOK v.data) :
    validateRFC3339Time v k = ([], [VErr.timeMinute k v]) := by
  unfold validateRFC3339Time
  rw [if_neg (by push_neg; exact ⟨hf.1, hf.2⟩)]
  rcases hp : parseUintDec (v.data.take 2) with _ | n
  · simp [timeHourOK, hp] at hh
  · simp only [timeHourOK, hp, Option.any_some, decide_eq_true_eq] at hh
    dsimp only
    rw [if_neg (by omega)]
    rcases hq : parseUintDec (v.data.drop 3) with _ | p
    · rfl
    · simp only [timeMinuteOK, hq, Option.any_some, decide_eq_true_eq] at hmn
      dsimp only
      rw [if_pos (by omega)]

theorem rfc3339_ok (v k : String) (hf : timeFormatOK v.data)
    (hh : timeHourOK v.data) (hmn : timeMinuteOK v.data) :
    validateRFC3339Time v k = ([], []) := by
  unfold validateRFC3339Time
  rw [if_neg (by push_neg; exact ⟨hf.1, hf.2⟩)]
  rcases hp : parseUintDec (v.data.take 2) with _ | n
  · simp [timeHourOK, hp] at hh
  · simp only [timeHourOK, hp, Option.any_some, decide_eq_true_eq] at hh
    dsimp only
    rw [if_neg (by omega)]
    rcases hq : parseUintDec (v.data.drop 3) with _ | p
    · simp [timeMinuteOK, hq] at hmn
    · simp only [timeMinuteOK, hq, Option.any_some, decide_eq_true_eq] at hmn
      dsimp only
      rw [if_neg (by omega)]

/-- C5: `validateRFC3339Time` returns zero errors iff the value has exactly 5
characters with a colon at index 2, the first two characters parse as an
unsigned integer `0`–`23`, and the last two as an unsigned integer `0`–`59`;
the checks run in that order and the first failing one yields exactly one
error naming its component; `"23:59"` is accepted, `"24:00"` gets the hour
error, `"12:60"` gets the minute error, `"1:30"` gets the format error. -/
theorem validateRFC3339Time_characterization (v k : String) :
    ((validateRFC3339Time v k).2 = [] ↔
      timeFormatOK v.data ∧ timeHourOK v.data ∧ timeMinuteOK v.data) ∧
    (¬ timeFormatOK v.data →
      (validateRFC3339Time v k).2 = [VErr.timeFormat k v]) ∧
    (timeFormatOK v.data → ¬ timeHourOK v.data →
      (validateRFC3339Time v k).2 = [VErr.timeHour k v]) ∧
    (timeFormatOK v.data → timeHourOK v.data → ¬ timeMinuteOK v.data →
      (validateRFC3339Time v k).2 = [VErr.timeMinute k v]) ∧
    (validateRFC3339Time "23:59" k).2 = [] ∧
    (validateRFC3339Time "24:00" k).2 = [VErr.timeHour k "24:00"] ∧
    (validateRFC3339Time "12:60" k).2 = [VErr.timeMinute k "12:60"] ∧
    (validateRFC3339Time "1:30" k).2 = [VErr.timeFormat k "1:30"] := by
  refine ⟨?_, fun hf => by rw [rfc3339_format_fail v k hf],
    fun hf hh => by rw [rfc3339_hour_fail v k hf hh],
    fun hf hh hmn => by rw [rfc3339_minute_fail v k hf hh hmn],
    rfl, rfl, rfl, rfl⟩
  constructor
  · intro he
    by_cases hf : timeFormatOK v.data
    · by_cases hh : timeHourOK v.data
      · by_cases hmn : timeMinuteOK v.data
        · exact ⟨hf, hh, hmn⟩
        · rw [rfc3339_minute_fail v k hf hh hmn] at he
          simp at he
      · rw [rfc3339_hour_fail v k hf hh] at he
        simp at he
    · rw [rfc3339_format_fail v k hf] at he
      simp at he
  · rintro ⟨hf, hh, hmn⟩
    rw [rfc3339_ok v k hf hh hmn]

/-- C5 witness: `"24:00"` passes the format check, fails the hour check, and
gets exactly the hour error. -/
theorem validateRFC3339Time_characterization_witness :
    (validateRFC3339Time "24:00" "key").2 = [VErr.timeHour "key" "24:00"] :=
  (validateRFC3339Time_characterization "24:00" "key").2.2.1 (by decide)
    (by decide)

/-- C6: in `validateCloudIoTID` the reserved-prefix check and the
shape-pattern check run unconditionally and independently: a value violating
only the prefix rule gets exactly the prefix error (e.g. `"googDevice"`), a
value violating only the shape rule gets exactly the shape error (e.g.
`"1Device"`), and a value violating both accumulates exactly two errors. -/
theorem validateCloudIoTID_independent (v k : String) :
    ("goog".data.isPrefixOf v.data = true → matchesCloudIoTIdRe v.data = true →
      (validateCloudIoTID v k).2 = [VErr.googReserved k v]) ∧
    ("goog".data.isPrefixOf v.data = false →
      matchesCloudIoTIdRe v.data = false →
      (validateCloudIoTID v k).2 = [VErr.regexpMismatch k v CloudIoTIdRegex]) ∧
    ("goog".data.isPrefixOf v.data = true →
      matchesCloudIoTIdRe v.data = false →
      (validateCloudIoTID v k).2 =
        [VErr.googReserved k v, VErr.regexpMismatch k v CloudIoTIdRegex]) ∧
    ("goog".data.isPrefixOf v.data = false →
      matchesCloudIoTIdRe v.data = true → (validateCloudIoTID v k).2 = []) ∧
    (validateCloudIoTID "googDevice" k).2 = [VErr.googReserved k "googDevice"] ∧
    (validateCloudIoTID "1Device" k).2 =
      [VErr.regexpMismatch k "1Device" CloudIoTIdRegex] := by
  refine ⟨fun h1 h2 => ?_, fun h1 h2 => ?_, fun h1 h2 => ?_, fun h1 h2 => ?_,
    rfl, rfl⟩ <;> simp [validateCloudIoTID, h1, h2]

/-- C6 witness: `"googDevice"` matches the shape but carries the reserved
prefix, so exactly the prefix error is returned. -/
theorem validateCloudIoTID_independent_witness :
    (validateCloudIoTID "googDevice" "key").2 =
      [VErr.googReserved "key" "googDevice"] :=
  (validateCloudIoTID_independent "googDevice" "key").1 (by decide) (by decide)

/-- C7 counterexample: `"a-bc"` receives no shape-pattern error (its errors
list is empty) although its remaining characters are not all drawn from the
claim's hyphen-free set, so the claimed equivalence fails. -/
theorem validateCloudIoTID_shape_claim_counterexample :
    ¬ (noShapeError "a-bc" "k" ↔ ioTShapeClaim "a-bc".data) := by
  decide

/-- C7 (amended): `validateCloudIoTID` produces no shape-pattern error iff
the value starts with a letter, has 3–255 total characters, and all remaining
characters are drawn from letters, digits, `-`, `.`, `_`, `+`, `~`, `%` (the
hyphen belongs to the source's character class). -/
theorem validateCloudIoTID_shape_characterization (v k : String) :
    noShapeError v k ↔ ioTShapeSpec v.data := by
  by_cases hs : matchesCloudIoTIdRe v.data = true
  · refine iff_of_true ?_ ((matchesCloudIoTIdRe_iff v.data).mp hs)
    simp only [noShapeError, validateCloudIoTID, hs, if_true, List.append_nil]
    split <;> simp
  · refine iff_of_false ?_
      (fun hsp => hs ((matchesCloudIoTIdRe_iff v.data).mpr hsp))
    simp only [noShapeError, validateCloudIoTID, Bool.eq_false_iff.mpr hs,
      if_false]
    simp

end GoogleValidation
